import Mathlib

/-
Verification of the samv71-hal serial/GPIO/watchdog core.

The Rust sources are shallowly embedded: every register-touching operation
is a pure Lean function from the peripheral's visible register state to a
result together with the chronological list of register interactions
(reads and writes) it performs.  Machine integers are modelled as Nat with
explicit truncation (% 2^w) exactly where the source performs a narrowing
cast or writes a fixed-width register field.
-/

set_option maxRecDepth 4096

namespace Samv71

/-- Status-register flags read by the serial drivers (SR for UART, CSR for
USART): overrun, framing error, parity error, receiver ready, transmitter
ready, transmitter empty. -/
structure StatusReg where
  ovre : Bool
  frame : Bool
  pare : Bool
  rxrdy : Bool
  txrdy : Bool
  txempty : Bool
  deriving DecidableEq, Repr

/-- Visible register state of a UART instance as used by read/write/flush:
the status register and the receive-holding register (a 32-bit raw value;
the RXCHR field is its low 8 bits). -/
structure UartRegs where
  sr : StatusReg
  rhr : Nat
  deriving DecidableEq, Repr

/-- Visible register state of a USART instance: channel status register and
receive-holding register (RXCHR is the low 9 bits). -/
structure UsartRegs where
  csr : StatusReg
  rhr : Nat
  deriving DecidableEq, Repr

/-- The result type of the non-blocking operations, mirroring nb::Result:
success, would-block (not ready), or a peripheral error. -/
inductive NbResult (α : Type) (ε : Type) where
  | ok : α → NbResult α ε
  | wouldBlock : NbResult α ε
  | error : ε → NbResult α ε
  deriving DecidableEq, Repr

/-- UART receive errors, from src/serial/uart.rs. -/
inductive UartError where
  | Parity
  | Framing
  | Overrun
  deriving DecidableEq, Repr

/-- USART receive errors, from src/serial/usart.rs. -/
inductive UsartError where
  | Parity
  | Framing
  | Overrun
  deriving DecidableEq, Repr

/-- Control-register bits touched by the drivers (write-1-to-act). -/
structure CrBits where
  rstrx : Bool
  rsttx : Bool
  rxen : Bool
  rxdis : Bool
  txen : Bool
  txdis : Bool
  rststa : Bool
  deriving DecidableEq, Repr

/-- UART parity encodings of the mode register (pac PAR_A). -/
inductive ParA where
  | EVEN
  | ODD
  | SPACE
  | MARK
  | NO
  deriving DecidableEq, Repr

/-- Channel-mode encodings of the mode register (pac CHMODE_A). -/
inductive ChmodeA where
  | NORMAL
  | AUTOMATIC
  | LOCAL_LOOPBACK
  | REMOTE_LOOPBACK
  deriving DecidableEq, Repr

/-- USART parity encodings (pac PAR_A of the USART, including MULTIDROP). -/
inductive UsartParA where
  | EVEN
  | ODD
  | SPACE
  | MARK
  | NO
  | MULTIDROP
  deriving DecidableEq, Repr

/-- USART character-length encodings (pac CHRL_A). -/
inductive ChrlA where
  | FIVE_BIT
  | SIX_BIT
  | SEVEN_BIT
  | EIGHT_BIT
  deriving DecidableEq, Repr

/-- USART operating-mode encodings (pac USART_MODE_A). -/
inductive UsartModeA where
  | NORMAL
  | RS485
  | HW_HANDSHAKING
  | LON
  | SPI_MASTER
  | SPI_SLAVE
  deriving DecidableEq, Repr

/-- Value written to the UART mode register by configure: channel mode,
parity, digital filter, and the baud-rate source clock fixed to the
peripheral clock. -/
structure UartMrVal where
  chmode : ChmodeA
  par : ParA
  filter : Bool
  brsrcckPeriphClk : Bool
  deriving DecidableEq, Repr

/-- Value written to the USART mode register by configure. -/
structure UsartMrVal where
  usartMode : UsartModeA
  par : UsartParA
  chmode : ChmodeA
  chrl : ChrlA
  sync : Bool
  deriving DecidableEq, Repr

/-- One register interaction performed by a serial driver, in chronological
order: PMC clock-gate enable, control/mode/baud/transmit-holding register
writes, and status/receive-holding register reads. -/
inductive SerialEvent where
  | pmcEnable : Nat → SerialEvent
  | writeCR : CrBits → SerialEvent
  | writeUartMR : UartMrVal → SerialEvent
  | writeUsartMR : UsartMrVal → SerialEvent
  | writeBRGR : Nat → SerialEvent
  | writeTHR : Nat → SerialEvent
  | readSR : SerialEvent
  | readRHR : SerialEvent
  deriving DecidableEq, Repr

namespace Uart

/-- UART parity options, from src/serial/uart.rs. -/
inductive Parity where
  | Even
  | Odd
  | Mark
  | Space
  | NoParity
  deriving DecidableEq, Repr

/-- UART channel-mode options, from src/serial/uart.rs. -/
inductive ChannelMode where
  | Normal
  | Automatic
  | LocalLoopback
  | RemoteLoopback
  deriving DecidableEq, Repr

/-- UART configuration value (BaudRate is a u16 newtype in the source). -/
structure Config where
  baudRate : Nat
  parity : Parity
  channelMode : ChannelMode
  digitalFilter : Bool
  deriving DecidableEq, Repr

/-- ConfigMethod::get_mode of the UART driver. -/
def getMode : ChannelMode → ChmodeA
  | .Normal => .NORMAL
  | .Automatic => .AUTOMATIC
  | .LocalLoopback => .LOCAL_LOOPBACK
  | .RemoteLoopback => .REMOTE_LOOPBACK

/-- ConfigMethod::get_parity of the UART driver. -/
def getParity : Parity → ParA
  | .Even => .EVEN
  | .Mark => .MARK
  | .NoParity => .NO
  | .Odd => .ODD
  | .Space => .SPACE

/-- The quotient computed by ConfigMethod::configure in src/serial/uart.rs:
cd = 150_000_000 / (baud_rate * 16), truncated integer division. -/
def baudDivisor (baud : Nat) : Nat :=
  150000000 / (baud * 16)

/-- The value that actually lands in the CD field of the UART baud-rate
generator register: configure writes `cd as u16`, a 16-bit truncation. -/
def brgrProgrammed (baud : Nat) : Nat :=
  baudDivisor baud % 65536

/-- ConfigMethod::configure of the UART driver: one mode-register write,
then one baud-rate-generator write of the truncated divisor. -/
def configure (c : Config) : List SerialEvent :=
  [.writeUartMR ⟨getMode c.channelMode, getParity c.parity, c.digitalFilter, true⟩,
   .writeBRGR (brgrProgrammed c.baudRate)]

/-- UART instances generated by the uart! macro invocation. -/
inductive UartId where
  | UART0
  | UART1
  | UART2
  | UART3
  | UART4
  deriving DecidableEq, Repr

/-- Peripheral identifier whose PMC clock-gate bit each constructor sets
(pid7/pid8 in PMC_PCER0, pid44/pid45/pid46 in PMC_PCER1). -/
def pid : UartId → Nat
  | .UART0 => 7
  | .UART1 => 8
  | .UART2 => 44
  | .UART3 => 45
  | .UART4 => 46

/-- The control-register value written by every UART constructor right
after enabling the clock: reset and disable transmitter and receiver and
clear status, all in one write. -/
def resetCr : CrBits :=
  ⟨true, true, false, true, false, true, true⟩

/-- Control-register value that enables the transmitter and/or receiver. -/
def enableCr (tx rx : Bool) : CrBits :=
  ⟨false, false, rx, false, tx, false, false⟩

/-- Register interactions of Serial::uartN (full-duplex constructor):
PMC clock enable, reset/disable/clear-status CR write, configure, then
enable both transmitter and receiver. -/
def mkFullDuplex (u : UartId) (c : Config) : List SerialEvent :=
  .pmcEnable (pid u) :: .writeCR resetCr :: (configure c ++ [.writeCR (enableCr true true)])

/-- Register interactions of Serial::uartNtx (tx-only constructor). -/
def mkTxOnly (u : UartId) (c : Config) : List SerialEvent :=
  .pmcEnable (pid u) :: .writeCR resetCr :: (configure c ++ [.writeCR (enableCr true false)])

/-- Register interactions of Serial::uartNrx (rx-only constructor). -/
def mkRxOnly (u : UartId) (c : Config) : List SerialEvent :=
  .pmcEnable (pid u) :: .writeCR resetCr :: (configure c ++ [.writeCR (enableCr false true)])

namespace Serial

/-- Read::read for Serial<UART, TXPIN, RXPIN>: one status-register read,
then the priority chain overrun / framing / parity / rxrdy / would-block;
on rxrdy the low 8 bits of RHR (the RXCHR field) are returned. -/
def read (r : UartRegs) : NbResult Nat UartError × List SerialEvent :=
  if r.sr.ovre then (.error .Overrun, [.readSR])
  else if r.sr.frame then (.error .Framing, [.readSR])
  else if r.sr.pare then (.error .Parity, [.readSR])
  else if r.sr.rxrdy then (.ok (r.rhr % 256), [.readSR, .readRHR])
  else (.wouldBlock, [.readSR])

/-- Write::write for Serial<UART, TXPIN, RXPIN>: one status-register read;
if TXRDY is set the byte is written once into THR, otherwise would-block. -/
def write (byte : Nat) (r : UartRegs) : NbResult Unit Empty × List SerialEvent :=
  if r.sr.txrdy then (.ok (), [.readSR, .writeTHR byte])
  else (.wouldBlock, [.readSR])

/-- Write::flush for Serial<UART, TXPIN, RXPIN>: one status-register read;
success if TXEMPTY is set, otherwise would-block. -/
def flush (r : UartRegs) : NbResult Unit Empty × List SerialEvent :=
  if r.sr.txempty then (.ok (), [.readSR])
  else (.wouldBlock, [.readSR])

end Serial

namespace Rx

/-- Read::read for the Rx<UART> half, transcribed from its own impl block. -/
def read (r : UartRegs) : NbResult Nat UartError × List SerialEvent :=
  if r.sr.ovre then (.error .Overrun, [.readSR])
  else if r.sr.frame then (.error .Framing, [.readSR])
  else if r.sr.pare then (.error .Parity, [.readSR])
  else if r.sr.rxrdy then (.ok (r.rhr % 256), [.readSR, .readRHR])
  else (.wouldBlock, [.readSR])

end Rx

namespace Tx

/-- Write::write for the Tx<UART> half, transcribed from its own impl block. -/
def write (byte : Nat) (r : UartRegs) : NbResult Unit Empty × List SerialEvent :=
  if r.sr.txrdy then (.ok (), [.readSR, .writeTHR byte])
  else (.wouldBlock, [.readSR])

/-- Write::flush for the Tx<UART> half, transcribed from its own impl block. -/
def flush (r : UartRegs) : NbResult Unit Empty × List SerialEvent :=
  if r.sr.txempty then (.ok (), [.readSR])
  else (.wouldBlock, [.readSR])

end Tx

end Uart

namespace Usart

/-- USART parity options, from src/serial/usart.rs. -/
inductive Parity where
  | Even
  | Odd
  | Space
  | Mark
  | NoParity
  | MultridropMode
  deriving DecidableEq, Repr

/-- USART channel-mode options. -/
inductive ChannelMode where
  | Normal
  | Automatic
  | LocalLoopback
  | RemoteLoopback
  deriving DecidableEq, Repr

/-- USART synchronous/asynchronous selection. -/
inductive SyncMode where
  | Async
  | Sync
  deriving DecidableEq, Repr

/-- USART character length options. -/
inductive CharLength where
  | FiveBit
  | SixBit
  | SevenBit
  | EightBit
  deriving DecidableEq, Repr

/-- USART operating-mode options. -/
inductive UsartMode where
  | Normal
  | Rs485
  | HWHandsahking
  | LON
  | SPIMaster
  | SPISlave
  deriving DecidableEq, Repr

/-- USART configuration value. -/
structure Config where
  baudRate : Nat
  parity : Parity
  channelMode : ChannelMode
  charLength : CharLength
  syncMode : SyncMode
  usartMode : UsartMode
  deriving DecidableEq, Repr

/-- ConfigMethod::get_parity of the USART driver. -/
def getParity : Parity → UsartParA
  | .Even => .EVEN
  | .Mark => .MARK
  | .MultridropMode => .MULTIDROP
  | .NoParity => .NO
  | .Odd => .ODD
  | .Space => .SPACE

/-- ConfigMethod::get_mode of the USART driver. -/
def getMode : ChannelMode → ChmodeA
  | .Normal => .NORMAL
  | .Automatic => .AUTOMATIC
  | .LocalLoopback => .LOCAL_LOOPBACK
  | .RemoteLoopback => .REMOTE_LOOPBACK

/-- ConfigMethod::get_char_length of the USART driver. -/
def getCharLength : CharLength → ChrlA
  | .FiveBit => .FIVE_BIT
  | .SixBit => .SIX_BIT
  | .SevenBit => .SEVEN_BIT
  | .EightBit => .EIGHT_BIT

/-- ConfigMethod::get_usart_mode of the USART driver. -/
def getUsartMode : UsartMode → UsartModeA
  | .Normal => .NORMAL
  | .HWHandsahking => .HW_HANDSHAKING
  | .LON => .LON
  | .Rs485 => .RS485
  | .SPISlave => .SPI_SLAVE
  | .SPIMaster => .SPI_MASTER

/-- The baud value computed and written by the USART configure:
12_000_000u32 / (baud_rate as u32 * 16), a full 32-bit BRGR write. -/
def brgrProgrammed (baud : Nat) : Nat :=
  12000000 / (baud * 16)

/-- USART instances generated by the usart! macro invocation. -/
inductive UsartId where
  | USART0
  | USART1
  | USART2
  deriving DecidableEq, Repr

/-- PMC clock-gate bit of each USART instance (pid13/14/15 in PMC_PCER0). -/
def pid : UsartId → Nat
  | .USART0 => 13
  | .USART1 => 14
  | .USART2 => 15

/-- ConfigMethod::configure of the USART driver: it enables the PMC
clock-gate bit itself, then writes the mode register, then the baud-rate
generator.  Unlike the UART constructors, no control-register reset is
performed anywhere. -/
def configure (u : UsartId) (c : Config) : List SerialEvent :=
  [.pmcEnable (pid u),
   .writeUsartMR ⟨getUsartMode c.usartMode, getParity c.parity, getMode c.channelMode,
                  getCharLength c.charLength, c.syncMode = .Sync⟩,
   .writeBRGR (brgrProgrammed c.baudRate)]

/-- Register interactions of Serial::usartN (full duplex): configure, then
enable transmitter and receiver. -/
def mkFullDuplex (u : UsartId) (c : Config) : List SerialEvent :=
  configure u c ++ [.writeCR (Uart.enableCr true true)]

/-- Register interactions of Serial::usartNtx (tx-only). -/
def mkTxOnly (u : UsartId) (c : Config) : List SerialEvent :=
  configure u c ++ [.writeCR (Uart.enableCr true false)]

/-- Register interactions of Serial::usartNrx (rx-only). -/
def mkRxOnly (u : UsartId) (c : Config) : List SerialEvent :=
  configure u c ++ [.writeCR (Uart.enableCr false true)]

namespace Serial

/-- Read::read for Serial<USART, TXPIN, RXPIN>: one CSR read, then the
priority chain overrun / framing / parity / rxrdy / would-block; on rxrdy
the RXCHR field of RHR (low 9 bits) is returned. -/
def read (r : UsartRegs) : NbResult Nat UsartError × List SerialEvent :=
  if r.csr.ovre then (.error .Overrun, [.readSR])
  else if r.csr.frame then (.error .Framing, [.readSR])
  else if r.csr.pare then (.error .Parity, [.readSR])
  else if r.csr.rxrdy then (.ok (r.rhr % 512), [.readSR, .readRHR])
  else (.wouldBlock, [.readSR])

/-- Write::write for Serial<USART, TXPIN, RXPIN>: one CSR read; if TXRDY
is set the data is written once into the 9-bit TXCHR field of THR. -/
def write (data : Nat) (r : UsartRegs) : NbResult Unit Empty × List SerialEvent :=
  if r.csr.txrdy then (.ok (), [.readSR, .writeTHR (data % 512)])
  else (.wouldBlock, [.readSR])

/-- Write::flush for Serial<USART, TXPIN, RXPIN>: one CSR read; success if
TXEMPTY is set, otherwise would-block. -/
def flush (r : UsartRegs) : NbResult Unit Empty × List SerialEvent :=
  if r.csr.txempty then (.ok (), [.readSR])
  else (.wouldBlock, [.readSR])

end Serial

end Usart

/-- The Serial driver value: it owns the peripheral instance and the pair
of bound pins (either of which may be the unit placeholder). -/
structure SerialDrv (U TX RX : Type) where
  uart : U
  pins : TX × RX
  deriving DecidableEq, Repr

/-- The phantom transmit half produced by split. -/
structure TxHalf (U : Type) where
  deriving DecidableEq, Repr

/-- The phantom receive half produced by split. -/
structure RxHalf (U : Type) where
  deriving DecidableEq, Repr

namespace SerialDrv

/-- Serial::release: consumes the driver and returns self.pins.  The
result together with the (empty) list of register interactions. -/
def release {U TX RX : Type} (s : SerialDrv U TX RX) : (TX × RX) × List SerialEvent :=
  (s.pins, [])

/-- Serial::split: consumes the driver and returns the two phantom halves;
no register is touched. -/
def split {U TX RX : Type} (_s : SerialDrv U TX RX) :
    (TxHalf U × RxHalf U) × List SerialEvent :=
  ((⟨⟩, ⟨⟩), [])

end SerialDrv

/-- Port identifiers of the PIO controllers. -/
inductive Port where
  | A
  | B
  | C
  | D
  | E
  deriving DecidableEq, Repr, Fintype

/-- Alternate functions selectable for a pin. -/
inductive AFn where
  | AF0
  | AF1
  | AF2
  | AF3
  deriving DecidableEq, Repr, Fintype

/-- A physical pin: its port and its index within the port. -/
structure PinId where
  port : Port
  idx : Fin 32
  deriving DecidableEq, Repr, Fintype

/-- The serial peripheral instances that bind pins. -/
inductive SerialDev where
  | UART0
  | UART1
  | UART2
  | UART3
  | UART4
  | USART0
  | USART1
  | USART2
  deriving DecidableEq, Repr

/-- Pin roles in the capability relation. -/
inductive Role where
  | Tx
  | Rx
  deriving DecidableEq, Repr

/-- The capability relation, transcribed from the uart_pins! and
usart_pins! macro invocations: every (peripheral, role, pin, alternate
function) tuple for which a TxPin/RxPin trait impl is generated. -/
def capabilityTable : List (SerialDev × Role × PinId × AFn) :=
  [(.UART0, .Tx, ⟨.A, 10⟩, .AF0),
   (.UART0, .Rx, ⟨.A, 9⟩, .AF0),
   (.UART1, .Tx, ⟨.A, 4⟩, .AF2),
   (.UART1, .Tx, ⟨.A, 6⟩, .AF2),
   (.UART1, .Tx, ⟨.D, 26⟩, .AF3),
   (.UART1, .Rx, ⟨.A, 5⟩, .AF2),
   (.UART2, .Tx, ⟨.D, 26⟩, .AF2),
   (.UART2, .Rx, ⟨.D, 25⟩, .AF2),
   (.UART3, .Tx, ⟨.D, 30⟩, .AF0),
   (.UART3, .Tx, ⟨.D, 31⟩, .AF1),
   (.UART3, .Rx, ⟨.D, 28⟩, .AF0),
   (.UART4, .Tx, ⟨.D, 19⟩, .AF2),
   (.UART4, .Tx, ⟨.D, 3⟩, .AF2),
   (.UART4, .Rx, ⟨.D, 18⟩, .AF2),
   (.USART0, .Tx, ⟨.B, 1⟩, .AF2),
   (.USART0, .Rx, ⟨.B, 0⟩, .AF2),
   (.USART1, .Tx, ⟨.B, 4⟩, .AF3),
   (.USART1, .Rx, ⟨.A, 21⟩, .AF0),
   (.USART2, .Tx, ⟨.D, 16⟩, .AF1),
   (.USART2, .Rx, ⟨.D, 15⟩, .AF1)]

/-- Whether a (peripheral, role, pin, alternate function) pairing is
admitted by the capability relation. -/
def capable (d : SerialDev) (r : Role) (p : PinId) (a : AFn) : Bool :=
  (d, r, p, a) ∈ capabilityTable

/-- A pin binding accepted by a driver constructor.  In the Rust source the
trait bound TxPin/RxPin makes an inadmissible pairing a type error; here
the constructor-side gate is a table lookup that yields none for any
pairing outside the relation, before producing any register interaction. -/
def bindPin (d : SerialDev) (r : Role) (p : PinId) (a : AFn) :
    Option (SerialDev × Role × PinId × AFn) :=
  if capable d r p a then some (d, r, p, a) else none

/-- State of the two alternate-function selector registers of one PIO
port (ABCDSR[0] and ABCDSR[1], 32 bits each). -/
structure AbcdsrState where
  abcdsr0 : Nat
  abcdsr1 : Nat
  deriving DecidableEq, Repr

namespace Gpio

/-- The _set_alternate_mode helper of the gpio! macro: value0 = mode & 1
and value1 = (mode >> 1) & 1 are each shifted to the pin's position, and
each ABCDSR register is modified with a closure that ignores the value
read and stores exactly value << index, as a 32-bit register. -/
def setAlternateMode (index : Nat) (mode : Nat) (_s : AbcdsrState) : AbcdsrState :=
  { abcdsr0 := ((mode &&& 1) <<< index) % 2 ^ 32,
    abcdsr1 := (((mode >>> 1) &&& 1) <<< index) % 2 ^ 32 }

/-- PXi::into_alternate_afN for n in {0,1,2,3}: calls _set_alternate_mode
with the pin's index and the alternate-function number. -/
def intoAlternateAf (n : Fin 4) (i : Fin 32) (s : AbcdsrState) : AbcdsrState :=
  setAlternateMode i.val n.val s

end Gpio

namespace Watchdog

/-- A field assignment of one WDT mode-register write: which fields the
write's closure explicitly sets, in source order. -/
inductive WdtField where
  | wddis : Bool → WdtField
  | wdv : Nat → WdtField
  deriving DecidableEq, Repr

/-- One register interaction of the watchdog driver. -/
inductive WdtEvent where
  | writeMR : List WdtField → WdtEvent
  | writeCRPasswd : WdtEvent
  deriving DecidableEq, Repr

/-- WatchdogEnable::start: masks the period with 0x0FFF, then performs a
single mode-register write that clears WDDIS and stores the masked period
in the WDV field. -/
def start (period : Nat) : List WdtEvent :=
  [.writeMR [.wddis false, .wdv (period &&& 0x0FFF)]]

/-- WatchdogDisable::disable: a single mode-register write that sets only
the WDDIS bit. -/
def disable : List WdtEvent :=
  [.writeMR [.wddis true]]

/-- Watchdog::feed: a single control-register write of the password key. -/
def feed : List WdtEvent :=
  [.writeCRPasswd]

end Watchdog

/-- Whether an event is a serial mode-register write. -/
def isMrWrite : SerialEvent → Bool
  | .writeUartMR _ => true
  | .writeUsartMR _ => true
  | _ => false

/-- Modelled from the spec: the four-step construction protocol of section
4.4 — clock-gate enable first, then the single reset/disable/clear-status
control-register write, then the mode and baud-rate-generator writes, then
the transmitter/receiver enable matching the supplied pins. -/
def followsProtocol (p : Nat) (tx rx : Bool) (tr : List SerialEvent) : Prop :=
  ∃ e cd, isMrWrite e = true ∧
    tr = [.pmcEnable p, .writeCR Uart.resetCr, e, .writeBRGR cd,
          .writeCR (Uart.enableCr tx rx)]

/-- The protocol actually implemented by the USART constructors: the same
steps minus the reset/disable/clear-status control-register write. -/
def followsProtocolNoReset (p : Nat) (tx rx : Bool) (tr : List SerialEvent) : Prop :=
  ∃ e cd, isMrWrite e = true ∧
    tr = [.pmcEnable p, e, .writeBRGR cd, .writeCR (Uart.enableCr tx rx)]

/-- A UART configuration with requested baud rate 100 (a valid u16). -/
def cfgBaud100 : Uart.Config :=
  ⟨100, .NoParity, .Normal, false⟩

/-- A UART configuration with requested baud rate 9600. -/
def cfgBaud9600 : Uart.Config :=
  ⟨9600, .NoParity, .Normal, false⟩

/-- A USART configuration used as a concrete constructor input. -/
def usartCfg0 : Usart.Config :=
  ⟨9600, .NoParity, .Normal, .EightBit, .Async, .Normal⟩

/-- A UART register state with every status flag clear. -/
def regsIdle : UartRegs :=
  ⟨⟨false, false, false, false, false, false⟩, 0⟩

/-- A UART register state with both the overrun and the framing flag set. -/
def regsOvreFrame : UartRegs :=
  ⟨⟨true, true, false, false, false, false⟩, 0⟩

/-- A UART register state with the transmitter-ready flag set. -/
def regsTxReady : UartRegs :=
  ⟨⟨false, false, false, false, true, false⟩, 0⟩

/-- A USART register state with both the overrun and the framing flag set. -/
def usartRegsOvreFrame : UsartRegs :=
  ⟨⟨true, true, false, false, false, false⟩, 0⟩

/-- A USART register state with the transmitter-ready flag set. -/
def usartRegsTxReady : UsartRegs :=
  ⟨⟨false, false, false, false, true, false⟩, 0⟩

lemma shiftLeft_small_lt (v i : Nat) (hv : v ≤ 1) (hi : i < 32) :
    v <<< i < 2 ^ 32 := by
  rw [Nat.shiftLeft_eq]
  calc v * 2 ^ i ≤ 1 * 2 ^ i := Nat.mul_le_mul_right _ hv
    _ = 2 ^ i := one_mul _
    _ < 2 ^ 32 := Nat.pow_lt_pow_right (by norm_num) hi

lemma testBit_shiftLeft_small (v i j : Nat) (hv : v ≤ 1) (hne : j ≠ i) :
    (v <<< i).testBit j = false := by
  rw [Nat.testBit_shiftLeft]
  rcases Nat.lt_or_ge j i with hlt | hge
  · simp [Nat.not_le_of_lt hlt]
  · have hji : j - i ≠ 0 := by omega
    have hvlt : v < 2 ^ (j - i) := by
      calc v ≤ 1 := hv
        _ < 2 ^ 1 := by norm_num
        _ ≤ 2 ^ (j - i) := Nat.pow_le_pow_right (by norm_num) (by omega)
    simp [Nat.testBit_lt_two_pow hvlt]

/-- C1: for a UART driver (peripheral clock 150 MHz), the value configure
programs into the BRGR register is floor(F / (16*B)) truncated to 16 bits
by the `as u16` cast; as the claim states it — untruncated — it fails for
small baud rates whose divisor exceeds 65535.  At B = 100 (a valid u16)
the divisor 93750 is programmed as 28214. -/
theorem uart_brgr_truncated_at_baud_100 :
    SerialEvent.writeBRGR (150000000 / (16 * 100)) ∉ Uart.configure cfgBaud100 ∧
    SerialEvent.writeBRGR 28214 ∈ Uart.configure cfgBaud100 ∧
    150000000 / (16 * 100) = 93750 := by
  decide

/-- C1 (amended): whenever floor(150000000 / (16*B)) fits in 16 bits —
in particular for every baud rate B ≥ 144, hence for B = 9600 — the value
configure programs into BRGR equals floor(150000000 / (16*B)), and it is
the only BRGR write configure performs. -/
theorem uart_brgr_eq_floor_div (c : Uart.Config)
    (h : 150000000 / (c.baudRate * 16) < 65536) :
    SerialEvent.writeBRGR (150000000 / (16 * c.baudRate)) ∈ Uart.configure c ∧
    ∀ v, SerialEvent.writeBRGR v ∈ Uart.configure c → v = 150000000 / (16 * c.baudRate) := by
  have hb : Uart.brgrProgrammed c.baudRate = 150000000 / (16 * c.baudRate) := by
    unfold Uart.brgrProgrammed Uart.baudDivisor
    rw [Nat.mod_eq_of_lt h, Nat.mul_comm c.baudRate 16]
  constructor
  · simp [Uart.configure, hb]
  · intro v hv
    simp only [Uart.configure, List.mem_cons, List.mem_singleton] at hv
    rcases hv with hv | hv | hv
    · cases hv
    · cases hv
      rw [hb]
    · cases hv

theorem uart_brgr_eq_floor_div_witness :
    SerialEvent.writeBRGR 976 ∈ Uart.configure cfgBaud9600 := by
  have h := uart_brgr_eq_floor_div cfgBaud9600 (by decide)
  have h976 : 150000000 / (16 * cfgBaud9600.baudRate) = 976 := by decide
  simpa [h976] using h.1

/-- C2: the claim states flush does not return until TXEMPTY is set.  In
the source flush performs a single status poll and returns would-block
when the flag is clear: on the all-clear register state it returns
(without success, and without spinning) while TXEMPTY is still clear. -/
theorem uart_flush_single_poll_counterexample :
    regsIdle.sr.txempty = false ∧
    (Uart.Serial.flush regsIdle).1 = .wouldBlock ∧
    (Uart.Serial.flush regsIdle).1 ≠ .ok () ∧
    (Uart.Tx.flush regsIdle).1 = .wouldBlock ∧
    (Uart.Serial.flush regsIdle).2 = [.readSR] := by
  decide

/-- C2 (amended): flush — on the full driver and on its Tx half alike —
performs exactly one status-register poll per call; it returns success
precisely when TXEMPTY is set and would-block precisely when it is clear,
so it never reports success while the flag is clear; draining is achieved
by the caller re-invoking flush until it succeeds. -/
theorem uart_flush_spec (r : UartRegs) :
    ((Uart.Serial.flush r).1 = .ok () ↔ r.sr.txempty = true) ∧
    ((Uart.Serial.flush r).1 = .wouldBlock ↔ r.sr.txempty = false) ∧
    (Uart.Serial.flush r).2 = [.readSR] ∧
    Uart.Tx.flush r = Uart.Serial.flush r := by
  rcases r with ⟨⟨o, f, p, rx, t, te⟩, rhr⟩
  cases te <;> simp [Uart.Serial.flush, Uart.Tx.flush]

/-- C3: the claim states release returns both the peripheral instance and
the pins.  In the source release returns only self.pins: two drivers that
differ in their owned peripheral instance have identical release results,
so the peripheral instance is not part of what release returns. -/
theorem release_drops_peripheral :
    SerialDrv.release (⟨0, (1, 2)⟩ : SerialDrv Nat Nat Nat) =
      SerialDrv.release (⟨5, (1, 2)⟩ : SerialDrv Nat Nat Nat) ∧
    (⟨0, (1, 2)⟩ : SerialDrv Nat Nat Nat).uart ≠
      (⟨5, (1, 2)⟩ : SerialDrv Nat Nat Nat).uart := by
  decide

/-- C3 (amended): release returns exactly the original pin values — the
peripheral instance is consumed and dropped, not handed back — and
performs no register interaction. -/
theorem release_returns_pins :
    ∀ (U TX RX : Type) (u : U) (tx : TX) (rx : RX),
      SerialDrv.release ⟨u, (tx, rx)⟩ = ((tx, rx), ([] : List SerialEvent)) := by
  intro U TX RX u tx rx
  rfl

/-- C4: read — on the full driver, its Rx half, and the USART driver —
evaluates the status flags in strict priority order: Overrun beats
Framing beats Parity beats receiver-ready beats not-ready. -/
theorem read_priority (r : UartRegs) (s : UsartRegs) :
    (r.sr.ovre = true →
      Uart.Serial.read r = (.error .Overrun, [.readSR]) ∧
      Uart.Rx.read r = (.error .Overrun, [.readSR])) ∧
    (r.sr.ovre = false → r.sr.frame = true →
      Uart.Serial.read r = (.error .Framing, [.readSR]) ∧
      Uart.Rx.read r = (.error .Framing, [.readSR])) ∧
    (r.sr.ovre = false → r.sr.frame = false → r.sr.pare = true →
      Uart.Serial.read r = (.error .Parity, [.readSR]) ∧
      Uart.Rx.read r = (.error .Parity, [.readSR])) ∧
    (r.sr.ovre = false → r.sr.frame = false → r.sr.pare = false → r.sr.rxrdy = true →
      Uart.Serial.read r = (.ok (r.rhr % 256), [.readSR, .readRHR]) ∧
      Uart.Rx.read r = (.ok (r.rhr % 256), [.readSR, .readRHR])) ∧
    (r.sr.ovre = false → r.sr.frame = false → r.sr.pare = false → r.sr.rxrdy = false →
      Uart.Serial.read r = (.wouldBlock, [.readSR]) ∧
      Uart.Rx.read r = (.wouldBlock, [.readSR])) ∧
    (s.csr.ovre = true → Usart.Serial.read s = (.error .Overrun, [.readSR])) ∧
    (s.csr.ovre = false → s.csr.frame = true →
      Usart.Serial.read s = (.error .Framing, [.readSR])) ∧
    (s.csr.ovre = false → s.csr.frame = false → s.csr.pare = true →
      Usart.Serial.read s = (.error .Parity, [.readSR])) ∧
    (s.csr.ovre = false → s.csr.frame = false → s.csr.pare = false → s.csr.rxrdy = true →
      Usart.Serial.read s = (.ok (s.rhr % 512), [.readSR, .readRHR])) ∧
    (s.csr.ovre = false → s.csr.frame = false → s.csr.pare = false → s.csr.rxrdy = false →
      Usart.Serial.read s = (.wouldBlock, [.readSR])) := by
  refine ⟨?_, ?_, ?_, ?_, ?_, ?_, ?_, ?_, ?_, ?_⟩ <;>
    (intros; simp [Uart.Serial.read, Uart.Rx.read, Usart.Serial.read, *])

theorem read_priority_witness :
    Uart.Serial.read regsOvreFrame = (.error .Overrun, [.readSR]) ∧
    Usart.Serial.read usartRegsOvreFrame = (.error .Overrun, [.readSR]) := by
  have h := read_priority regsOvreFrame usartRegsOvreFrame
  exact ⟨(h.1 rfl).1, h.2.2.2.2.2.1 rfl⟩

/-- C5: the claim states every constructor (UART and USART) performs the
reset/disable/clear-status control-register write between the clock-gate
enable and the mode/baud programming.  The USART full-duplex constructor
for USART0 performs no such write at all: its trace is clock enable, mode
write, baud write, enable — four events and no reset. -/
theorem usart_ctor_skips_reset :
    ¬ followsProtocol 13 true true (Usart.mkFullDuplex .USART0 usartCfg0) ∧
    SerialEvent.writeCR Uart.resetCr ∉ Usart.mkFullDuplex .USART0 usartCfg0 := by
  constructor
  · rintro ⟨e, cd, -, h⟩
    have hlen := congrArg List.length h
    simp [Usart.mkFullDuplex, Usart.configure] at hlen
  · decide

/-- C5 (amended): every UART constructor (full-duplex, tx-only, rx-only,
for all five instances) follows the full protocol — clock enable, then the
single reset/disable/clear-status write, then mode and baud programming,
then enabling exactly the direction(s) whose pins were supplied; every
USART constructor follows the same protocol except that it performs no
reset/disable/clear-status write. -/
theorem constructors_follow_protocol :
    (∀ (u : Uart.UartId) (c : Uart.Config),
      followsProtocol (Uart.pid u) true true (Uart.mkFullDuplex u c) ∧
      followsProtocol (Uart.pid u) true false (Uart.mkTxOnly u c) ∧
      followsProtocol (Uart.pid u) false true (Uart.mkRxOnly u c)) ∧
    (∀ (u : Usart.UsartId) (c : Usart.Config),
      followsProtocolNoReset (Usart.pid u) true true (Usart.mkFullDuplex u c) ∧
      followsProtocolNoReset (Usart.pid u) true false (Usart.mkTxOnly u c) ∧
      followsProtocolNoReset (Usart.pid u) false true (Usart.mkRxOnly u c)) := by
  constructor
  · intro u c
    refine ⟨⟨_, _, ?_, rfl⟩, ⟨_, _, ?_, rfl⟩, ⟨_, _, ?_, rfl⟩⟩ <;> rfl
  · intro u c
    refine ⟨⟨_, _, ?_, rfl⟩, ⟨_, _, ?_, rfl⟩, ⟨_, _, ?_, rfl⟩⟩ <;> rfl

/-- C6: write(x) with TXRDY clear returns would-block and performs no
transmit-holding-register write; with TXRDY set it writes exactly one copy
of x into THR and reports success — on the UART driver, its Tx half, and
the USART driver. -/
theorem write_spec (x : Nat) (r : UartRegs) (s : UsartRegs) (hx : x < 256) :
    (r.sr.txrdy = false →
      Uart.Serial.write x r = (.wouldBlock, [.readSR]) ∧
      Uart.Tx.write x r = (.wouldBlock, [.readSR])) ∧
    (r.sr.txrdy = true →
      Uart.Serial.write x r = (.ok (), [.readSR, .writeTHR x]) ∧
      Uart.Tx.write x r = (.ok (), [.readSR, .writeTHR x])) ∧
    ((Uart.Serial.write x r).2.count (SerialEvent.writeTHR x) =
      if r.sr.txrdy then 1 else 0) ∧
    (s.csr.txrdy = false → Usart.Serial.write x s = (.wouldBlock, [.readSR])) ∧
    (s.csr.txrdy = true → Usart.Serial.write x s = (.ok (), [.readSR, .writeTHR x])) := by
  have hx512 : x % 512 = x := Nat.mod_eq_of_lt (by omega)
  refine ⟨?_, ?_, ?_, ?_, ?_⟩
  · intro h
    simp [Uart.Serial.write, Uart.Tx.write, h]
  · intro h
    simp [Uart.Serial.write, Uart.Tx.write, h]
  · by_cases h : r.sr.txrdy <;> simp [Uart.Serial.write, h]
  · intro h
    simp [Usart.Serial.write, h]
  · intro h
    simp [Usart.Serial.write, h, hx512]

theorem write_spec_witness :
    Uart.Serial.write 65 regsTxReady = (.ok (), [.readSR, .writeTHR 65]) ∧
    Uart.Serial.write 65 regsIdle = (.wouldBlock, [.readSR]) ∧
    Usart.Serial.write 65 usartRegsTxReady = (.ok (), [.readSR, .writeTHR 65]) := by
  have hready := write_spec 65 regsTxReady usartRegsTxReady (by decide)
  have hidle := write_spec 65 regsIdle usartRegsTxReady (by decide)
  exact ⟨(hready.2.1 rfl).1, (hidle.1 rfl).1, hready.2.2.2.2 rfl⟩

/-- C7: split performs no register interaction, and the read, write and
flush of the Tx/Rx halves are — as functions of the register state —
identical to those of the un-split driver: same reads, same writes, same
results on every state and every byte. -/
theorem split_halves_equiv :
    (∀ (U TX RX : Type) (s : SerialDrv U TX RX), (SerialDrv.split s).2 = []) ∧
    (∀ r : UartRegs, Uart.Rx.read r = Uart.Serial.read r) ∧
    (∀ (x : Nat) (r : UartRegs), Uart.Tx.write x r = Uart.Serial.write x r) ∧
    (∀ r : UartRegs, Uart.Tx.flush r = Uart.Serial.flush r) := by
  exact ⟨fun U TX RX s => rfl, fun r => rfl, fun x r => rfl, fun r => rfl⟩

/-- C8: the capability relation admits exactly the wiring-table pairings:
UART0 transmits only on PA10/AF0 and receives only on PA9/AF0; UART2 on
PD26/AF2 and PD25/AF2; USART0 on PB1/AF2 and PB0/AF2; and a pairing is
accepted by the constructor-side gate precisely when it is in the
relation — anything outside is rejected with none. -/
theorem capability_relation_exact :
    (∀ (p : PinId) (a : AFn), capable .UART0 .Tx p a = true ↔ p = ⟨.A, 10⟩ ∧ a = .AF0) ∧
    (∀ (p : PinId) (a : AFn), capable .UART0 .Rx p a = true ↔ p = ⟨.A, 9⟩ ∧ a = .AF0) ∧
    capable .UART2 .Tx ⟨.D, 26⟩ .AF2 = true ∧
    capable .UART2 .Rx ⟨.D, 25⟩ .AF2 = true ∧
    capable .USART0 .Tx ⟨.B, 1⟩ .AF2 = true ∧
    capable .USART0 .Rx ⟨.B, 0⟩ .AF2 = true ∧
    (∀ (d : SerialDev) (r : Role) (p : PinId) (a : AFn),
      (bindPin d r p a).isSome = capable d r p a) ∧
    (∀ (d : SerialDev) (r : Role) (p : PinId) (a : AFn),
      bindPin d r p a = none ↔ capable d r p a = false) := by
  refine ⟨by decide, by decide, by decide, by decide, by decide, by decide, ?_, ?_⟩
  · intro d r p a
    by_cases h : capable d r p a <;> simp [bindPin, h]
  · intro d r p a
    by_cases h : capable d r p a <;> simp [bindPin, h]

/-- C9: into_alternate_afN writes the two selector registers with exactly
the single pin's selector value — (n & 1) << i and ((n >> 1) & 1) << i —
so every other pin's selector bits on the same port are cleared to zero,
whatever they were before the call. -/
theorem alternate_mode_clears_other_pins (s : AbcdsrState) (i : Fin 32) (n : Fin 4) :
    (Gpio.intoAlternateAf n i s).abcdsr0 = (n.val &&& 1) <<< i.val ∧
    (Gpio.intoAlternateAf n i s).abcdsr1 = ((n.val >>> 1) &&& 1) <<< i.val ∧
    ∀ j : Fin 32, j ≠ i →
      (Gpio.intoAlternateAf n i s).abcdsr0.testBit j.val = false ∧
      (Gpio.intoAlternateAf n i s).abcdsr1.testBit j.val = false := by
  have hlow : n.val &&& 1 ≤ 1 := Nat.and_le_right
  have hhigh : (n.val >>> 1) &&& 1 ≤ 1 := Nat.and_le_right
  have h0 : (Gpio.intoAlternateAf n i s).abcdsr0 = (n.val &&& 1) <<< i.val := by
    show ((n.val &&& 1) <<< i.val) % 2 ^ 32 = (n.val &&& 1) <<< i.val
    exact Nat.mod_eq_of_lt (shiftLeft_small_lt _ _ hlow i.isLt)
  have h1 : (Gpio.intoAlternateAf n i s).abcdsr1 = ((n.val >>> 1) &&& 1) <<< i.val := by
    show (((n.val >>> 1) &&& 1) <<< i.val) % 2 ^ 32 = ((n.val >>> 1) &&& 1) <<< i.val
    exact Nat.mod_eq_of_lt (shiftLeft_small_lt _ _ hhigh i.isLt)
  refine ⟨h0, h1, ?_⟩
  intro j hj
  have hne : j.val ≠ i.val := fun h => hj (Fin.ext h)
  rw [h0, h1]
  exact ⟨testBit_shiftLeft_small _ _ _ hlow hne, testBit_shiftLeft_small _ _ _ hhigh hne⟩

theorem alternate_mode_clears_other_pins_witness :
    (Gpio.intoAlternateAf 2 5 ⟨4294967295, 4294967295⟩).abcdsr0.testBit 7 = false ∧
    (Gpio.intoAlternateAf 2 5 ⟨4294967295, 4294967295⟩).abcdsr1.testBit 7 = false := by
  have h := alternate_mode_clears_other_pins ⟨4294967295, 4294967295⟩ 5 2
  exact h.2.2 7 (by decide)

/-- C10: Watchdog::start(p) performs a single mode-register write that
clears the WDDIS bit and stores p & 0x0FFF — that is, p mod 4096, silently
truncating periods above 4095 — into the WDV field, and Watchdog::disable
performs a single mode-register write that sets only the WDDIS bit. -/
theorem watchdog_start_disable :
    (∀ p : Nat, Watchdog.start p =
      [.writeMR [.wddis false, .wdv (p % 4096)]]) ∧
    Watchdog.disable = [.writeMR [.wddis true]] := by
  constructor
  · intro p
    have hmask : p &&& 0x0FFF = p % 4096 := by
      have h := Nat.and_pow_two_sub_one_eq_mod p 12
      norm_num at h
      exact h
    simp [Watchdog.start, hmask]
  · rfl

end Samv71
